import Mathlib

/-!
Verification of the pane-splitting script `scripts/split_terminal.py`.

The script is a single linear procedure driven by the iTerm2 scripting
API.  We embed it shallowly: the only input the procedure branches on is
the host's answer to "is there a current terminal window, and what is the
current session's character grid size", so the embedding is a pure
function from that answer (`Option (Nat × Nat)`, width × height) to the
sequence of host operations the script performs and the lines it prints.

Pane handles are numbered by creation order: `0` is the original
`session`, `1` is `right_session` (created by the first, vertical split),
`2` is `bottom_right_session` (created by the second, horizontal split).

Python's `int(x * 0.55)` on a nonnegative grid dimension truncates toward
zero, i.e. floors; the float literals `0.55`, `0.45`, `0.5` are modelled
as the exact rationals written in the source text, so `int(w * 0.55)`
becomes `w * 55 / 100` in natural-number (floor) division.
-/

namespace SplitTerminal

/-- A width × height pair in character cells (`iterm2.util.Size`). -/
structure Size where
  width : Nat
  height : Nat
  deriving DecidableEq

/-- One operation issued to (or observation read from) the iTerm2 host,
in the order the script performs them.  `splitPane target vertical before
newPane` records the keyword arguments of `async_split_pane` together
with the handle of the pane it returns; `setPreferred` records an
assignment to a session's `preferred_size` attribute, transmitted by the
subsequent `async_update_layout`. -/
inductive HostCall where
  | getApp : HostCall
  | inspectWindow : HostCall
  | readGridSize (pane : Nat) : HostCall
  | splitPane (target : Nat) (vertical : Bool) (before : Bool) (newPane : Nat) : HostCall
  | setPreferred (pane : Nat) (size : Size) : HostCall
  | updateLayout : HostCall
  | sendText (target : Nat) (text : String) : HostCall
  | activate (pane : Nat) : HostCall
  deriving DecidableEq

/-- Everything observable about one run of the procedure: the host
operations in order, and the lines printed to standard output. -/
structure RunResult where
  calls : List HostCall
  printed : List String
  deriving DecidableEq

/-- Shallow embedding of `main(connection)` from
`scripts/split_terminal.py`.  The argument is the host's state: `none`
when `app.current_terminal_window` is `None`, otherwise
`some (w, h)` where `w × h` is `session.grid_size` of the current tab's
current session.

Source, line by line: get the app and inspect the window; if a window
exists, read the grid size, split the current pane
(`vertical=True, before=False`) producing `right_session`, split that
(`vertical=False, before=False`) producing `bottom_right_session`, set
the three preferred sizes (`0.55w × h`, `0.45w × 0.55h`,
`0.5w × 0.45h`), update the layout, send the text `"btop\n"` to
`right_session`, and activate the original session.  If no window
exists, print `"No active iTerm2 window"`. -/
def mainRun (window : Option (Nat × Nat)) : RunResult :=
  match window with
  | none =>
      { calls := [HostCall.getApp, HostCall.inspectWindow]
        printed := ["No active iTerm2 window"] }
  | some (w, h) =>
      { calls :=
          [HostCall.getApp,
           HostCall.inspectWindow,
           HostCall.readGridSize 0,
           HostCall.splitPane 0 true false 1,
           HostCall.splitPane 1 false false 2,
           HostCall.setPreferred 0 ⟨w * 55 / 100, h⟩,
           HostCall.setPreferred 1 ⟨w * 45 / 100, h * 55 / 100⟩,
           HostCall.setPreferred 2 ⟨w * 50 / 100, h * 45 / 100⟩,
           HostCall.updateLayout,
           HostCall.sendText 1 "btop\n",
           HostCall.activate 0]
        printed := [] }

/-- Whether a host call is a pane split. -/
def HostCall.isSplit : HostCall → Bool
  | .splitPane _ _ _ _ => true
  | _ => false

/-- Whether a host call is a text send. -/
def HostCall.isSend : HostCall → Bool
  | .sendText _ _ => true
  | _ => false

/-- Whether a host call is a pane activation. -/
def HostCall.isActivate : HostCall → Bool
  | .activate _ => true
  | _ => false

/-- Whether a host call is a layout update. -/
def HostCall.isUpdateLayout : HostCall → Bool
  | .updateLayout => true
  | _ => false

/-- The preferred size most recently assigned to pane `p` during a run,
if any. -/
def preferredOf (r : RunResult) (p : Nat) : Option Size :=
  (r.calls.filterMap fun c =>
    match c with
    | HostCall.setPreferred q s => if q = p then some s else none
    | _ => none).getLast?

/-- Number of panes in the window after a run, starting from the single
original pane: each successful split creates exactly one new pane. -/
def panesAfter (r : RunResult) : Nat :=
  1 + (r.calls.filter HostCall.isSplit).length

/-- Execution of a planned call sequence against a host on which some
calls fail.  The script wraps no call in `try`/`except`, so the first
failing call aborts the run: the result is the list of calls actually
performed, and the failing call if the run aborted.  Later calls are
never attempted and nothing already performed is undone or retried. -/
def runWithFailures (fails : HostCall → Bool) : List HostCall → List HostCall × Option HostCall
  | [] => ([], none)
  | c :: cs =>
      if fails c then ([], some c)
      else
        let r := runWithFailures fails cs
        (c :: r.1, r.2)

/-- The process entry point with the ambient process inputs made
explicit: the script registers `main` via `iterm2.run_until_complete`
and consults no command-line arguments, no environment variables, no
configuration file and no randomness, so the run depends only on the
host's window state. -/
def mainRunFull (window : Option (Nat × Nat)) (argv : List String)
    (env : List (String × String)) : RunResult :=
  mainRun window

/-- Aborted runs of `runWithFailures`: if execution of `l` stops with
failing call `f` after performing `performed`, then `f` did fail, every
performed call succeeded, and `l` is exactly `performed`, then `f`, then
the never-attempted remainder. -/
theorem runWithFailures_spec (fails : HostCall → Bool) (l performed : List HostCall)
    (f : HostCall) (h : runWithFailures fails l = (performed, some f)) :
    fails f = true ∧ (∀ c ∈ performed, fails c = false) ∧
      ∃ rest, l = performed ++ f :: rest := by
  induction l generalizing performed with
  | nil => simp [runWithFailures] at h
  | cons c cs ih =>
      by_cases hc : fails c = true
      · simp only [runWithFailures, if_pos hc, Prod.mk.injEq, Option.some.injEq] at h
        obtain ⟨hp, hf⟩ := h
        subst hp; subst hf
        exact ⟨hc, by simp, cs, rfl⟩
      · rcases hrw : runWithFailures fails cs with ⟨p2, s2⟩
        simp only [runWithFailures, if_neg hc, hrw, Prod.mk.injEq] at h
        obtain ⟨hp, hs⟩ := h
        subst hs
        obtain ⟨h1, h2, rest, h3⟩ := ih p2 hrw
        refine ⟨h1, ?_, rest, ?_⟩
        · intro d hd
          rw [← hp] at hd
          rcases List.mem_cons.mp hd with rfl | hd2
          · simpa using hc
          · exact h2 d hd2
        · rw [← hp, h3]
          rfl

/-- C1: the main and secondary panes' preferred sizes are
`(⌊0.55w⌋, h)` and `(⌊0.45w⌋, ⌊0.55h⌋)` as the claim states, but the
tertiary pane's preferred size is `(⌊0.5w⌋, ⌊0.45h⌋)` — its width is
half the grid width, not the claimed 45 percent. -/
theorem c1_preferred_sizes (w h : Nat) :
    preferredOf (mainRun (some (w, h))) 0 = some ⟨w * 55 / 100, h⟩ ∧
    preferredOf (mainRun (some (w, h))) 1 = some ⟨w * 45 / 100, h * 55 / 100⟩ ∧
    preferredOf (mainRun (some (w, h))) 2 = some ⟨w * 50 / 100, h * 45 / 100⟩ :=
  ⟨rfl, rfl, rfl⟩

/-- C1 counterexample: on the 160×48 grid the tertiary pane's requested
width is `160 * 50 / 100 = 80`, not `⌊0.45 * 160⌋ = 72` as claimed. -/
theorem c1_counterexample :
    preferredOf (mainRun (some (160, 48))) 2 = some ⟨80, 21⟩ ∧
    (160 : Nat) * 45 / 100 = 72 ∧ (80 : Nat) ≠ 72 := by
  exact ⟨rfl, rfl, by decide⟩

/-- C2: with no active window the run prints exactly the one notice
`"No active iTerm2 window"`, issues no split call, and issues no host
operation beyond the app lookup and the window inspection. -/
theorem c2_no_window :
    (mainRun none).printed = ["No active iTerm2 window"] ∧
    (mainRun none).calls.filter HostCall.isSplit = [] ∧
    (mainRun none).calls = [HostCall.getApp, HostCall.inspectWindow] :=
  ⟨rfl, rfl, rfl⟩

/-- C3: with an active window, exactly one text send occurs; its payload
is the literal `"btop\n"` (the command plus one newline) and its target
is pane 1, the pane produced by the first, vertical split — the same
pane that the second split then divides top/bottom. -/
theorem c3_send_btop (w h : Nat) :
    (mainRun (some (w, h))).calls.filter HostCall.isSend =
      [HostCall.sendText 1 "btop\n"] ∧
    (mainRun (some (w, h))).calls.filter HostCall.isSplit =
      [HostCall.splitPane 0 true false 1, HostCall.splitPane 1 false false 2] :=
  ⟨rfl, rfl⟩

/-- C4: with an active window the splits are, in order: the original
pane 0 split with `vertical=True, before=False` yielding pane 1, then
pane 1 split with `vertical=False, before=False` yielding pane 2. -/
theorem c4_split_orientations (w h : Nat) :
    (mainRun (some (w, h))).calls.filter HostCall.isSplit =
      [HostCall.splitPane 0 true false 1, HostCall.splitPane 1 false false 2] :=
  rfl

/-- C5: with an active window the final host call of the run is the
activation of pane 0, the original pre-split session. -/
theorem c5_focus_original (w h : Nat) :
    (mainRun (some (w, h))).calls.getLast? = some (HostCall.activate 0) :=
  rfl

/-- C6: on the 160×48 grid the run issues exactly two splits, exactly
one layout update, exactly one text send with payload `"btop\n"`, and
exactly one activation, targeting the original pane 0. -/
theorem c6_scenario_160_48 :
    ((mainRun (some (160, 48))).calls.filter HostCall.isSplit).length = 2 ∧
    (mainRun (some (160, 48))).calls.filter HostCall.isUpdateLayout =
      [HostCall.updateLayout] ∧
    (mainRun (some (160, 48))).calls.filter HostCall.isSend =
      [HostCall.sendText 1 "btop\n"] ∧
    (mainRun (some (160, 48))).calls.filter HostCall.isActivate =
      [HostCall.activate 0] :=
  ⟨rfl, rfl, rfl, rfl⟩

/-- C7: the procedure wraps no host call in a handler, so if any call of
a run fails, the failing call did fail, every call actually performed
succeeded and is never the failing one retried, and the run's planned
sequence splits as the performed prefix, the failing call, and a
remainder that is never attempted — no retry and no rollback. -/
theorem c7_failures_propagate (window : Option (Nat × Nat)) (fails : HostCall → Bool)
    (performed : List HostCall) (f : HostCall)
    (h : runWithFailures fails (mainRun window).calls = (performed, some f)) :
    fails f = true ∧ (∀ c ∈ performed, fails c = false) ∧ f ∉ performed ∧
      ∃ rest, (mainRun window).calls = performed ++ f :: rest := by
  obtain ⟨h1, h2, h3⟩ := runWithFailures_spec fails _ performed f h
  exact ⟨h1, h2, fun hm => by simp [h2 f hm] at h1, h3⟩

/-- C7 witness: on the 160×48 grid with a host that fails exactly the
layout update, the run performs the eight calls before it and stops. -/
theorem c7_failures_propagate_witness :
    (fun c : HostCall => decide (c = HostCall.updateLayout)) HostCall.updateLayout = true ∧
    (∀ c ∈ ([HostCall.getApp, HostCall.inspectWindow, HostCall.readGridSize 0,
        HostCall.splitPane 0 true false 1, HostCall.splitPane 1 false false 2,
        HostCall.setPreferred 0 ⟨88, 48⟩, HostCall.setPreferred 1 ⟨72, 26⟩,
        HostCall.setPreferred 2 ⟨80, 21⟩] : List HostCall),
      (fun c : HostCall => decide (c = HostCall.updateLayout)) c = false) ∧
    HostCall.updateLayout ∉ ([HostCall.getApp, HostCall.inspectWindow,
        HostCall.readGridSize 0, HostCall.splitPane 0 true false 1,
        HostCall.splitPane 1 false false 2, HostCall.setPreferred 0 ⟨88, 48⟩,
        HostCall.setPreferred 1 ⟨72, 26⟩, HostCall.setPreferred 2 ⟨80, 21⟩] :
        List HostCall) ∧
    ∃ rest, (mainRun (some (160, 48))).calls =
      [HostCall.getApp, HostCall.inspectWindow, HostCall.readGridSize 0,
       HostCall.splitPane 0 true false 1, HostCall.splitPane 1 false false 2,
       HostCall.setPreferred 0 ⟨88, 48⟩, HostCall.setPreferred 1 ⟨72, 26⟩,
       HostCall.setPreferred 2 ⟨80, 21⟩] ++ HostCall.updateLayout :: rest :=
  c7_failures_propagate (some (160, 48))
    (fun c => decide (c = HostCall.updateLayout))
    [HostCall.getApp, HostCall.inspectWindow, HostCall.readGridSize 0,
     HostCall.splitPane 0 true false 1, HostCall.splitPane 1 false false 2,
     HostCall.setPreferred 0 ⟨88, 48⟩, HostCall.setPreferred 1 ⟨72, 26⟩,
     HostCall.setPreferred 2 ⟨80, 21⟩] HostCall.updateLayout (by decide)

/-- C8: a successful run ends with exactly three panes; the secondary
and tertiary preferred heights `⌊0.55h⌋` and `⌊0.45h⌋` sum to within one
cell of the original height `h`; the secondary width is the 45 percent
share `⌊0.45w⌋`, but the tertiary width is `⌊0.5w⌋`, not the 45 percent
share the claim states. -/
theorem c8_invariant (w h : Nat) :
    panesAfter (mainRun (some (w, h))) = 3 ∧
    ∃ s2 s3 : Size,
      preferredOf (mainRun (some (w, h))) 1 = some s2 ∧
      preferredOf (mainRun (some (w, h))) 2 = some s3 ∧
      s2.height + s3.height ≤ h ∧ h ≤ s2.height + s3.height + 1 ∧
      s2.width = w * 45 / 100 ∧ s3.width = w * 50 / 100 := by
  refine ⟨rfl, ⟨w * 45 / 100, h * 55 / 100⟩, ⟨w * 50 / 100, h * 45 / 100⟩,
    rfl, rfl, ?_, ?_, rfl, rfl⟩
  · show h * 55 / 100 + h * 45 / 100 ≤ h
    omega
  · show h ≤ h * 55 / 100 + h * 45 / 100 + 1
    omega

/-- C8 counterexample: on a 200×40 grid the tertiary pane's requested
width is `200 * 50 / 100 = 100`, while the 45 percent share is 90; the
two differ by 10 cells, so the tertiary width is not approximately the
45 percent share. -/
theorem c8_counterexample :
    preferredOf (mainRun (some (200, 40))) 2 = some ⟨100, 18⟩ ∧
    (200 : Nat) * 45 / 100 = 90 ∧ ¬((100 : Nat) ≤ 90 + 1) := by
  exact ⟨rfl, rfl, by decide⟩

/-- C9: every run's host operations form the fixed linear sequence —
inspection, grid read, vertical split, horizontal split, the three
preferred-size assignments, layout update, text send, activation — each
operation occurring at most once (the sequence has no duplicates), with
nothing after the activation; a window-absent run stops after the
inspection. -/
theorem c9_linear_single_shot (w h : Nat) :
    (mainRun (some (w, h))).calls =
      [HostCall.getApp, HostCall.inspectWindow, HostCall.readGridSize 0,
       HostCall.splitPane 0 true false 1, HostCall.splitPane 1 false false 2,
       HostCall.setPreferred 0 ⟨w * 55 / 100, h⟩,
       HostCall.setPreferred 1 ⟨w * 45 / 100, h * 55 / 100⟩,
       HostCall.setPreferred 2 ⟨w * 50 / 100, h * 45 / 100⟩,
       HostCall.updateLayout, HostCall.sendText 1 "btop\n", HostCall.activate 0] ∧
    (mainRun none).calls = [HostCall.getApp, HostCall.inspectWindow] ∧
    (mainRun (some (w, h))).calls.Nodup ∧
    (mainRun (some (w, h))).calls.getLast? = some (HostCall.activate 0) := by
  refine ⟨rfl, rfl, ?_, rfl⟩
  simp [mainRun, List.nodup_cons]

/-- C10: the run is a deterministic function of the host's window state
alone — the procedure reads no command-line arguments, environment
variables, configuration or randomness, so two runs against the same
host state issue identical call sequences and print identical output. -/
theorem c10_deterministic (window : Option (Nat × Nat))
    (argv1 argv2 : List String) (env1 env2 : List (String × String)) :
    mainRunFull window argv1 env1 = mainRunFull window argv2 env2 :=
  rfl

end SplitTerminal
